import Mathlib

/-
  Verification of the resilient locator / interaction layer of
  `lectra_automation.py` (class `LectraTestAutomation`).

  Shallow embedding conventions:
  * Python strings are modelled as `List Char`; `str.startswith` for the
    one-character prefixes used by the script is a head test.
  * Selenium exceptions are modelled by the kind `ExKind`; every kind
    modelled here corresponds to a subclass of Python's `Exception`
    (TimeoutException, ElementClickInterceptedException, any other
    WebDriverException / Exception).  An `except Klass:` clause is
    modelled by a boolean predicate over `ExKind` saying which kinds the
    clause catches; a raise caught by no clause surfaces as
    `Except.error`.
  * A WebDriver element handle is modelled as a `Nat` identifier.
  * The page/driver behaviour visible to a function is passed in as an
    explicit environment (which candidate waits succeed, which clicks
    are intercepted, ...); side-effecting browser calls are recorded in
    an event trace so that claims about which calls are issued can be
    stated.
-/

/-- Kinds of (modelled) Python exceptions raised by the Selenium calls
the script makes.  All of them are subclasses of `Exception`. -/
inductive ExKind
  /-- `selenium.common.exceptions.TimeoutException` -/
  | timeoutEx
  /-- `selenium.common.exceptions.ElementClickInterceptedException` -/
  | interceptEx
  /-- any other exception deriving `Exception` (InvalidSelectorException,
      StaleElementReferenceException, WebDriverException, ...) -/
  | otherEx
deriving DecidableEq

/-- The two Selenium locator strategies used by
`_find_element_by_selectors` (`By.CSS_SELECTOR` and `By.XPATH`). -/
inductive ByStrat
  | cssSelector
  | xpath
deriving DecidableEq

/-- Python `selector.startswith(c)` for a one-character prefix `c`
(the script only ever tests the one-character prefixes `#`, `.`, `/`,
`(`; testing `//` is subsumed by testing `/`). -/
def startsWithChar (c : Char) : List Char → Bool
  | [] => false
  | a :: _ => a = c

/-- The dialect-classification chain of `_find_element_by_selectors`
(source lines 120-125): `#`/`.` select `By.CSS_SELECTOR`, else `/`/`(`
select `By.XPATH`, else the default is `By.CSS_SELECTOR`. -/
def classifySelector (s : List Char) : ByStrat :=
  if startsWithChar '#' s || startsWithChar '.' s then ByStrat.cssSelector
  else if startsWithChar '/' s || startsWithChar '(' s then ByStrat.xpath
  else ByStrat.cssSelector

/-- Outcome of one `wait.until(EC.element_to_be_clickable(...))` (or
`EC.presence_of_element_located`) call: either it returns an element
handle, or it raises an exception of some kind (a timeout raises
`ExKind.timeoutEx`). -/
inductive CandOutcome
  | found (e : Nat)
  | raised (k : ExKind)
deriving DecidableEq

/-- The single `except TimeoutException:` clause of
`_find_element_by_selectors` (source line 129): it catches exactly the
timeout kind. -/
def catchesTimeout (k : ExKind) : Bool := k = ExKind.timeoutEx

/-- Shallow embedding of `_find_element_by_selectors` (source lines
116-133).  `page strat s` is the outcome of the bounded wait for
selector `s` under strategy `strat`.  The first component is the
returned value (`some e` = element found, `none` = the Python `None` of
line 133) or an uncaught raise; the second component is the trace of
`(strategy, selector)` pairs actually attempted, in order. -/
def findElementBySelectors (page : ByStrat → List Char → CandOutcome) :
    List (List Char) → Except ExKind (Option Nat) × List (ByStrat × List Char)
  | [] => (Except.ok none, [])
  | s :: rest =>
    match page (classifySelector s) s with
    | CandOutcome.found e => (Except.ok (some e), [(classifySelector s, s)])
    | CandOutcome.raised k =>
      if catchesTimeout k then
        -- `except TimeoutException: continue`
        ((findElementBySelectors page rest).1,
          (classifySelector s, s) :: (findElementBySelectors page rest).2)
      else
        -- no clause catches `k`: the raise propagates out of the loop
        (Except.error k, [(classifySelector s, s)])

/-- Events traced while `_safe_click` runs: the browser-affecting calls
and the success/failure log lines that identify which path succeeded. -/
inductive SCEvent
  /-- The call `driver.execute_script("arguments[0].scrollIntoView(...)", element)`,
      scrolling the element roughly to viewport center (source line 88) -/
  | scrollIntoView
  /-- The call `time.sleep(0.5)`: the settle delay after the scroll (line 89) -/
  | settleDelay
  /-- The call `element.click()`: the native click attempt (line 92) -/
  | nativeClick
  /-- The log line `logger.info("Successfully clicked {description}")` (line 93) -/
  | logClicked
  /-- The call `driver.execute_script("arguments[0].click();", element)`: the
      synthetic JavaScript fallback click (line 100) -/
  | jsClick
  /-- The log line `logger.info("Successfully clicked {description} using JavaScript")`
      (line 101) -/
  | logJsClicked
  /-- The call `time.sleep(1)`: backoff before the next full attempt (105 / 113) -/
  | backoff
  /-- The log line `logger.error("Failed to click ... after 3 attempts")`
      (line 107) -/
  | logFailedAfterRetries
deriving DecidableEq

/-- Behaviour of the driver/element during one `_safe_click` call,
per attempt index `i` (0-based): whether the scroll script raises, what
the native click does, and whether the JavaScript fallback click raises.
`none` means the call returns normally. -/
structure ClickEnv where
  scroll : Nat → Option ExKind
  native : Nat → Option ExKind
  js : Nat → Option ExKind

/-- The constant `max_retries = 3` (source line 84). -/
def maxRetries : Nat := 3

/-- The `except ElementClickInterceptedException:` clause (line 96):
catches exactly the interception kind. -/
def catchesIntercept (k : ExKind) : Bool := k = ExKind.interceptEx

/-- An `except Exception:` clause (lines 103 and 109): every kind
modelled here derives `Exception`, so it catches all of them. -/
def catchesException (_k : ExKind) : Bool := true

/-- The body of the `try:` block of one `_safe_click` attempt (source
lines 87-94): scroll into view, settle, native click, success log.  A
raise anywhere in the body aborts the body, recording only the calls
issued before the raise. -/
def tryClickBody (env : ClickEnv) (i : Nat) : Except ExKind Unit × List SCEvent :=
  match env.scroll i with
  | some k => (Except.error k, [SCEvent.scrollIntoView])
  | none =>
    match env.native i with
    | some k =>
      (Except.error k, [SCEvent.scrollIntoView, SCEvent.settleDelay, SCEvent.nativeClick])
    | none =>
      (Except.ok (),
        [SCEvent.scrollIntoView, SCEvent.settleDelay, SCEvent.nativeClick, SCEvent.logClicked])

/-- The `for attempt in range(max_retries)` loop of `_safe_click`
(source lines 85-114), over the list of remaining attempt indices.
Running off the end of the loop is `return False` (line 114). -/
def safeClickLoop (env : ClickEnv) : List Nat → Except ExKind Bool × List SCEvent
  | [] => (Except.ok false, [])
  | i :: rest =>
    match tryClickBody env i with
    | (Except.ok _, tr) => (Except.ok true, tr)
    | (Except.error k, tr) =>
      if catchesIntercept k then
        -- `except ElementClickInterceptedException:` (line 96)
        if i < maxRetries - 1 then
          -- warn, then `try: execute_script("arguments[0].click();")`
          match env.js i with
          | none => (Except.ok true, tr ++ [SCEvent.jsClick, SCEvent.logJsClicked])
          | some kj =>
            if catchesException kj then
              -- `except Exception as js_e:` warn, `time.sleep(1)`, next attempt
              ((safeClickLoop env rest).1,
                tr ++ [SCEvent.jsClick, SCEvent.backoff] ++ (safeClickLoop env rest).2)
            else (Except.error kj, tr ++ [SCEvent.jsClick])
        else
          -- last attempt: log the error and `return False` (lines 107-108)
          (Except.ok false, tr ++ [SCEvent.logFailedAfterRetries])
      else if catchesException k then
        -- `except Exception as e:` (line 109)
        if i = maxRetries - 1 then (Except.ok false, tr)
        else
          -- `time.sleep(1)` then next attempt (line 113)
          ((safeClickLoop env rest).1, tr ++ [SCEvent.backoff] ++ (safeClickLoop env rest).2)
      else (Except.error k, tr)

/-- Shallow embedding of `_safe_click` (source lines 82-114). -/
def safeClick (env : ClickEnv) : Except ExKind Bool × List SCEvent :=
  safeClickLoop env (List.range maxRetries)

/-- Driver behaviour visible to `step_2_handle_google_cookies`: the
outcome of the `wait.until(EC.presence_of_element_located((By.ID,
"L2AGLb")))` call, the behaviour of the `_safe_click` on the cookie
button, and the outcome of the `wait.until(EC.presence_of_element_located
((By.NAME, "q")))` call for the search box. -/
structure Step2Env where
  cookieWait : CandOutcome
  click : ClickEnv
  searchWait : CandOutcome

/-- Shallow embedding of `step_2_handle_google_cookies` (source lines
170-188).  Note that `wait.until` either returns an element handle
(always truthy) or raises, so the `if cookie_button:` test is always
true on the non-raising path and the `else: return True` branch (lines
186-188) is unreachable.  When `_safe_click` succeeds, the search-box
wait runs and `assert_condition(search_box is not None, ...)` always
passes on the non-raising path (a returned handle is never `None`). -/
def step2HandleGoogleCookies (env : Step2Env) : Except ExKind Bool :=
  match env.cookieWait with
  | CandOutcome.raised k => Except.error k
  | CandOutcome.found _ =>
    match (safeClick env.click).1 with
    | Except.error k => Except.error k
    | Except.ok true =>
      match env.searchWait with
      | CandOutcome.raised k => Except.error k
      | CandOutcome.found _ => Except.ok true
    | Except.ok false => Except.ok false

/-- The `automotive_selectors` list of `step_8_click_automotive_furniture`
(source lines 354-357). -/
def automotiveSelectors : List (List Char) :=
  ["//button[contains(text(), \"Automotive\")]".data,
   "//*[@id=\"block-lectra-b5-mainnavigation\"]/ul/li[2]/button".data]

/-- The `furniture_selectors` list of `step_8_click_automotive_furniture`
(source lines 366-369). -/
def furnitureSelectors : List (List Char) :=
  ["//button[contains(text(), \"Furniture\")]".data,
   "//*[@id=\"block-lectra-b5-mainnavigation\"]/ul/li[3]/button".data]

/-- The Furniture half of `step_8_click_automotive_furniture` (source
lines 365-376): find the Furniture button; if found, `_safe_click` it
with the result discarded; then `return True`. -/
def step8Furniture (page : ByStrat → List Char → CandOutcome) (clickFurn : ClickEnv) :
    Except ExKind Bool :=
  match (findElementBySelectors page furnitureSelectors).1 with
  | Except.error k => Except.error k
  | Except.ok (some _) =>
    match (safeClick clickFurn).1 with
    | Except.error k => Except.error k
    | Except.ok _ => Except.ok true
  | Except.ok none => Except.ok true

/-- Shallow embedding of `step_8_click_automotive_furniture` (source
lines 349-376): find the Automotive button; if found, `_safe_click` it
with the result discarded; then do the same for Furniture and `return
True`.  The `_human_like_delay` calls affect no modelled state. -/
def step8ClickAutomotiveFurniture (page : ByStrat → List Char → CandOutcome)
    (clickAuto clickFurn : ClickEnv) : Except ExKind Bool :=
  match (findElementBySelectors page automotiveSelectors).1 with
  | Except.error k => Except.error k
  | Except.ok (some _) =>
    match (safeClick clickAuto).1 with
    | Except.error k => Except.error k
    | Except.ok _ => step8Furniture page clickFurn
  | Except.ok none => step8Furniture page clickFurn

/-- What a step function call does when invoked by the scenario loop:
return a boolean, or raise an exception of some kind. -/
inductive StepOutcome
  | ret (b : Bool)
  | raised (k : ExKind)
deriving DecidableEq

/-- The `try: result = step_function() ... except Exception: results
[step_name] = False` conversion of the scenario loop (lines 576-588):
the recorded boolean for one step. -/
def outcomeRecorded : StepOutcome → Bool
  | StepOutcome.ret b => b
  | StepOutcome.raised _ => false

/-- The twelve step names of the `steps` list of `run_complete_scenario`
(source lines 559-572), in order. -/
def stepNames : List String :=
  ["Open Google", "Handle Google Cookies", "Search for Lectra",
   "Navigate to Lectra Website", "Handle Lectra Cookies", "Switch to English",
   "Navigate Fashion Menu", "Click Automotive & Furniture", "Navigate About Us",
   "Navigate to Careers", "Handle Career Cookies", "Search Jobs & Click First"]

/-- The `for step_name, step_function in steps:` loop of
`run_complete_scenario` (source lines 575-588).  First component: the
`results` mapping built up (as the association list of its insertions,
in insertion order); second component: the trace of step names actually
executed, in order.  A step that raises has its exception caught by the
`except Exception` clause and is recorded as `False`; the loop then
advances regardless of the step result. -/
def scenarioLoop : List (String × StepOutcome) → List (String × Bool) × List String
  | [] => ([], [])
  | (name, out) :: rest =>
    ((name, outcomeRecorded out) :: (scenarioLoop rest).1, name :: (scenarioLoop rest).2)

/-- Shallow embedding of `run_complete_scenario` (source lines 555-596):
run the twelve named steps in order, where `beh i` is what the `i`-th
step function does when called. -/
def runCompleteScenario (beh : Nat → StepOutcome) : List (String × Bool) × List String :=
  scenarioLoop (stepNames.zip ((List.range 12).map beh))

/-- Helper: candidates that raise a timeout are skipped silently, each
contributing one attempted `(strategy, selector)` pair to the trace,
and resolution continues on the remaining candidates. -/
theorem find_skip_timeouts (page : ByStrat → List Char → CandOutcome)
    (pre : List (List Char))
    (h1 : ∀ t ∈ pre, page (classifySelector t) t = CandOutcome.raised ExKind.timeoutEx)
    (rest : List (List Char)) :
    findElementBySelectors page (pre ++ rest) =
      ((findElementBySelectors page rest).1,
        pre.map (fun t => (classifySelector t, t)) ++ (findElementBySelectors page rest).2) := by
  revert h1
  induction pre with
  | nil => intro _; simp [findElementBySelectors]
  | cons t pre ih =>
    intro h1
    have ht : page (classifySelector t) t = CandOutcome.raised ExKind.timeoutEx :=
      h1 t (by simp)
    have ih2 := ih (fun u hu => h1 u (by simp [hu]))
    simp [findElementBySelectors, ht, catchesTimeout, ih2]

/-- C1: resolution tries the candidates strictly in list order; when the
candidates before `s` all time out and `s` succeeds with element `e`,
the element of `s` is returned and the attempt trace is exactly the
candidates up to and including `s` (nothing after the first success is
evaluated); and when every candidate times out, resolution returns
`None` (NotFound) rather than raising. -/
theorem findElementBySelectors_first_success (page : ByStrat → List Char → CandOutcome)
    (pre : List (List Char)) (s : List Char) (post : List (List Char)) (e : Nat)
    (sels2 : List (List Char))
    (h1 : ∀ t ∈ pre, page (classifySelector t) t = CandOutcome.raised ExKind.timeoutEx)
    (h2 : page (classifySelector s) s = CandOutcome.found e)
    (h3 : ∀ t ∈ sels2, page (classifySelector t) t = CandOutcome.raised ExKind.timeoutEx) :
    findElementBySelectors page (pre ++ s :: post) =
      (Except.ok (some e), (pre ++ [s]).map (fun t => (classifySelector t, t))) ∧
    findElementBySelectors page sels2 =
      (Except.ok none, sels2.map (fun t => (classifySelector t, t))) := by
  constructor
  · rw [find_skip_timeouts page pre h1 (s :: post)]
    simp [findElementBySelectors, h2]
  · have := find_skip_timeouts page sels2 h3 []
    simpa [findElementBySelectors] using this

/-- C1 witness: with first candidate `"a"` timing out and second
candidate `"b"` matching element 7, resolution returns element 7 having
attempted exactly `"a"` then `"b"`; with both of `"a"`, `"d"` timing
out, resolution returns NotFound. -/
theorem findElementBySelectors_first_success_witness :
    findElementBySelectors
        (fun _ t => if t = ['b'] then CandOutcome.found 7
                    else CandOutcome.raised ExKind.timeoutEx)
        [['a'], ['b'], ['c']] =
      (Except.ok (some 7), [(ByStrat.cssSelector, ['a']), (ByStrat.cssSelector, ['b'])]) ∧
    findElementBySelectors
        (fun _ t => if t = ['b'] then CandOutcome.found 7
                    else CandOutcome.raised ExKind.timeoutEx)
        [['a'], ['d']] =
      (Except.ok none, [(ByStrat.cssSelector, ['a']), (ByStrat.cssSelector, ['d'])]) :=
  findElementBySelectors_first_success
    (fun _ t => if t = ['b'] then CandOutcome.found 7
                else CandOutcome.raised ExKind.timeoutEx)
    [['a']] ['b'] [['c']] 7 [['a'], ['d']]
    (by decide) (by decide) (by decide)

/-- C2: the addressing dialect is chosen by prefix alone: a selector
starting with `#` or `.` is resolved with `By.CSS_SELECTOR`, one
starting with `/` (which covers `//`) or `(` is resolved with
`By.XPATH`, and any other selector falls back to `By.CSS_SELECTOR`. -/
theorem classifySelector_dialect (s : List Char) :
    ((startsWithChar '#' s = true ∨ startsWithChar '.' s = true) →
      classifySelector s = ByStrat.cssSelector) ∧
    ((startsWithChar '/' s = true ∨ startsWithChar '(' s = true) →
      classifySelector s = ByStrat.xpath) ∧
    (startsWithChar '#' s = false → startsWithChar '.' s = false →
      startsWithChar '/' s = false → startsWithChar '(' s = false →
      classifySelector s = ByStrat.cssSelector) := by
  cases s with
  | nil => refine ⟨?_, ?_, ?_⟩ <;> simp [startsWithChar, classifySelector]
  | cons a t =>
    refine ⟨?_, ?_, ?_⟩
    · rintro (h | h) <;> simp [startsWithChar] at h <;>
        simp [classifySelector, startsWithChar, h]
    · rintro (h | h) <;> simp [startsWithChar] at h <;>
        subst h <;> simp [classifySelector, startsWithChar]
    · intro h1 h2 h3 h4
      simp [startsWithChar] at h1 h2 h3 h4
      simp [classifySelector, startsWithChar, h1, h2, h3, h4]

/-- C2 witness: `"#a"` is CSS, `"//a"` is XPath, `"div"` falls back to
CSS. -/
theorem classifySelector_dialect_witness :
    classifySelector ['#', 'a'] = ByStrat.cssSelector ∧
    classifySelector ['/', '/', 'a'] = ByStrat.xpath ∧
    classifySelector ['d', 'i', 'v'] = ByStrat.cssSelector :=
  ⟨(classifySelector_dialect ['#', 'a']).1 (Or.inl (by decide)),
   (classifySelector_dialect ['/', '/', 'a']).2.1 (Or.inl (by decide)),
   (classifySelector_dialect ['d', 'i', 'v']).2.2 (by decide) (by decide) (by decide)
     (by decide)⟩

/-- C7 counterexample: the claim says the failure of a candidate is
silent whatever its reason.  But only timeouts are caught: here the
first candidate `"a"` fails with a non-timeout exception and resolution
raises it immediately instead of advancing to the second candidate
`"b"`, which would have been found. -/
theorem findElementBySelectors_nontimeout_raises :
    findElementBySelectors
        (fun _ t => if t = ['a'] then CandOutcome.raised ExKind.otherEx
                    else CandOutcome.found 5)
        [['a'], ['b']] =
      (Except.error ExKind.otherEx, [(ByStrat.cssSelector, ['a'])]) := rfl

/-- C7 amended: the failure of a candidate by timeout is silent and
resolution advances to the next candidate; a candidate failing with any
non-timeout exception is not silent — resolution raises that exception
immediately, trying no further candidate. -/
theorem findElementBySelectors_timeout_silent
    (page page2 : ByStrat → List Char → CandOutcome) (s s2 : List Char)
    (rest rest2 : List (List Char)) (k : ExKind)
    (hto : page (classifySelector s) s = CandOutcome.raised ExKind.timeoutEx)
    (hk : k ≠ ExKind.timeoutEx)
    (h2 : page2 (classifySelector s2) s2 = CandOutcome.raised k) :
    (findElementBySelectors page (s :: rest)).1 = (findElementBySelectors page rest).1 ∧
    findElementBySelectors page2 (s2 :: rest2) =
      (Except.error k, [(classifySelector s2, s2)]) := by
  constructor
  · simp [findElementBySelectors, hto, catchesTimeout]
  · have hc : catchesTimeout k = false := by simp [catchesTimeout, hk]
    simp [findElementBySelectors, h2, hc]

/-- C7 amended witness: candidate `"a"` times out and resolution's
result on `["a", "b"]` equals its result on `["b"]`; a candidate
raising a non-timeout exception makes resolution raise. -/
theorem findElementBySelectors_timeout_silent_witness :
    (findElementBySelectors
        (fun _ t => if t = ['a'] then CandOutcome.raised ExKind.timeoutEx
                    else CandOutcome.found 3)
        [['a'], ['b']]).1 =
      (findElementBySelectors
        (fun _ t => if t = ['a'] then CandOutcome.raised ExKind.timeoutEx
                    else CandOutcome.found 3)
        [['b']]).1 ∧
    findElementBySelectors (fun _ _ => CandOutcome.raised ExKind.otherEx) [['x']] =
      (Except.error ExKind.otherEx, [(ByStrat.cssSelector, ['x'])]) :=
  findElementBySelectors_timeout_silent
    (fun _ t => if t = ['a'] then CandOutcome.raised ExKind.timeoutEx
                else CandOutcome.found 3)
    (fun _ _ => CandOutcome.raised ExKind.otherEx)
    ['a'] ['x'] [['b']] [] ExKind.otherEx (by decide) (by decide) (by decide)

/-- Helper: the `_safe_click` loop always terminates normally with a
boolean (every modelled raise is caught by one of its `except`
clauses), and its trace carries exactly one success log line — native
(`logClicked`) or JavaScript (`logJsClicked`) — when the result is
`True` and none when it is `False`. -/
theorem safeClickLoop_ok (env : ClickEnv) (l : List Nat) :
    ∃ b tr, safeClickLoop env l = (Except.ok b, tr) ∧
      tr.count SCEvent.logClicked + tr.count SCEvent.logJsClicked =
        (if b = true then 1 else 0) := by
  induction l with
  | nil => exact ⟨false, [], rfl, by simp⟩
  | cons i rest ih =>
    obtain ⟨b, tr, heq, hcount⟩ := ih
    cases hs : env.scroll i with
    | none =>
      cases hn : env.native i with
      | none =>
        refine ⟨true, [SCEvent.scrollIntoView, SCEvent.settleDelay, SCEvent.nativeClick,
          SCEvent.logClicked], ?_, by decide⟩
        simp [safeClickLoop, tryClickBody, hs, hn]
      | some k =>
        cases k with
        | interceptEx =>
          by_cases hi : i < maxRetries - 1
          · cases hj : env.js i with
            | none =>
              refine ⟨true, [SCEvent.scrollIntoView, SCEvent.settleDelay, SCEvent.nativeClick,
                SCEvent.jsClick, SCEvent.logJsClicked], ?_, by decide⟩
              simp [safeClickLoop, tryClickBody, hs, hn, hj, catchesIntercept, hi]
            | some kj =>
              refine ⟨b, [SCEvent.scrollIntoView, SCEvent.settleDelay, SCEvent.nativeClick,
                SCEvent.jsClick, SCEvent.backoff] ++ tr, ?_, ?_⟩
              · simp [safeClickLoop, tryClickBody, hs, hn, hj, catchesIntercept,
                  catchesException, hi, heq]
              · simpa using hcount
          · refine ⟨false, [SCEvent.scrollIntoView, SCEvent.settleDelay, SCEvent.nativeClick,
              SCEvent.logFailedAfterRetries], ?_, by decide⟩
            simp [safeClickLoop, tryClickBody, hs, hn, catchesIntercept, hi]
        | timeoutEx =>
          by_cases hi : i = maxRetries - 1
          · subst hi
            refine ⟨false, [SCEvent.scrollIntoView, SCEvent.settleDelay, SCEvent.nativeClick],
              ?_, by decide⟩
            simp [safeClickLoop, tryClickBody, hs, hn, catchesIntercept, catchesException]
          · refine ⟨b, [SCEvent.scrollIntoView, SCEvent.settleDelay, SCEvent.nativeClick,
              SCEvent.backoff] ++ tr, ?_, ?_⟩
            · simp [safeClickLoop, tryClickBody, hs, hn, catchesIntercept,
                catchesException, hi, heq]
            · simpa using hcount
        | otherEx =>
          by_cases hi : i = maxRetries - 1
          · subst hi
            refine ⟨false, [SCEvent.scrollIntoView, SCEvent.settleDelay, SCEvent.nativeClick],
              ?_, by decide⟩
            simp [safeClickLoop, tryClickBody, hs, hn, catchesIntercept, catchesException]
          · refine ⟨b, [SCEvent.scrollIntoView, SCEvent.settleDelay, SCEvent.nativeClick,
              SCEvent.backoff] ++ tr, ?_, ?_⟩
            · simp [safeClickLoop, tryClickBody, hs, hn, catchesIntercept,
                catchesException, hi, heq]
            · simpa using hcount
    | some k =>
      cases k with
      | interceptEx =>
        by_cases hi : i < maxRetries - 1
        · cases hj : env.js i with
          | none =>
            refine ⟨true, [SCEvent.scrollIntoView, SCEvent.jsClick, SCEvent.logJsClicked],
              ?_, by decide⟩
            simp [safeClickLoop, tryClickBody, hs, hj, catchesIntercept, hi]
          | some kj =>
            refine ⟨b, [SCEvent.scrollIntoView, SCEvent.jsClick, SCEvent.backoff] ++ tr, ?_, ?_⟩
            · simp [safeClickLoop, tryClickBody, hs, hj, catchesIntercept,
                catchesException, hi, heq]
            · simpa using hcount
        · refine ⟨false, [SCEvent.scrollIntoView, SCEvent.logFailedAfterRetries], ?_, by decide⟩
          simp [safeClickLoop, tryClickBody, hs, catchesIntercept, hi]
      | timeoutEx =>
        by_cases hi : i = maxRetries - 1
        · subst hi
          refine ⟨false, [SCEvent.scrollIntoView], ?_, by decide⟩
          simp [safeClickLoop, tryClickBody, hs, catchesIntercept, catchesException]
        · refine ⟨b, [SCEvent.scrollIntoView, SCEvent.backoff] ++ tr, ?_, ?_⟩
          · simp [safeClickLoop, tryClickBody, hs, catchesIntercept, catchesException, hi, heq]
          · simpa using hcount
      | otherEx =>
        by_cases hi : i = maxRetries - 1
        · subst hi
          refine ⟨false, [SCEvent.scrollIntoView], ?_, by decide⟩
          simp [safeClickLoop, tryClickBody, hs, catchesIntercept, catchesException]
        · refine ⟨b, [SCEvent.scrollIntoView, SCEvent.backoff] ++ tr, ?_, ?_⟩
          · simp [safeClickLoop, tryClickBody, hs, catchesIntercept, catchesException, hi, heq]
          · simpa using hcount

/-- C3 counterexample: the claim says a caller can distinguish a click
that succeeded natively from one that succeeded only via the JavaScript
fallback.  But `_safe_click` returns a plain boolean: a run whose first
native click succeeds and a run that succeeds only through the fallback
dispatch produce the identical caller-visible result (`True`), even
though their traces show one succeeded natively and the other via the
JavaScript click; so the result is two-state, not tri-state. -/
theorem safeClick_result_not_tri_state :
    (safeClick ⟨fun _ => none, fun _ => none, fun _ => none⟩).1 =
      (safeClick ⟨fun _ => none, fun _ => some ExKind.interceptEx, fun _ => none⟩).1 ∧
    (safeClick ⟨fun _ => none, fun _ => none, fun _ => none⟩).1 = Except.ok true ∧
    (safeClick ⟨fun _ => none, fun _ => none, fun _ => none⟩).2 =
      [SCEvent.scrollIntoView, SCEvent.settleDelay, SCEvent.nativeClick,
       SCEvent.logClicked] ∧
    (safeClick ⟨fun _ => none, fun _ => some ExKind.interceptEx, fun _ => none⟩).2 =
      [SCEvent.scrollIntoView, SCEvent.settleDelay, SCEvent.nativeClick,
       SCEvent.jsClick, SCEvent.logJsClicked] :=
  ⟨rfl, rfl, rfl, rfl⟩

/-- C3 amended: the result of an attempted click is two-state — the
returned boolean is `True` on success whether native or via the
JavaScript fallback, and `False` after exhausting retries.  The
native/fallback distinction is recorded only in the log line: exactly
one success log event (`logClicked` for native, `logJsClicked` for the
fallback) accompanies a `True` result and none accompanies `False`. -/
theorem safeClick_two_state_outcome (env : ClickEnv) :
    ∃ b tr, safeClick env = (Except.ok b, tr) ∧
      tr.count SCEvent.logClicked + tr.count SCEvent.logJsClicked =
        (if b = true then 1 else 0) :=
  safeClickLoop_ok env (List.range maxRetries)

/-- C4: when every native click attempt is reported as intercepted and
every JavaScript fallback click fails, `_safe_click` retries through
the fallback dispatch after each interception within the budget, makes
exactly `max_retries = 3` native attempts in total, and then returns
the failed outcome `False` to the caller as a value — it does not
raise. -/
theorem safeClick_intercept_retry_budget (env : ClickEnv)
    (hs : ∀ i, env.scroll i = none)
    (hn : ∀ i, env.native i = some ExKind.interceptEx)
    (hj : ∀ i, env.js i = some ExKind.otherEx) :
    safeClick env =
      (Except.ok false,
       [SCEvent.scrollIntoView, SCEvent.settleDelay, SCEvent.nativeClick, SCEvent.jsClick,
        SCEvent.backoff,
        SCEvent.scrollIntoView, SCEvent.settleDelay, SCEvent.nativeClick, SCEvent.jsClick,
        SCEvent.backoff,
        SCEvent.scrollIntoView, SCEvent.settleDelay, SCEvent.nativeClick,
        SCEvent.logFailedAfterRetries]) ∧
    (safeClick env).2.count SCEvent.nativeClick = maxRetries := by
  have hr : List.range maxRetries = [0, 1, 2] := rfl
  have heq : safeClick env =
      (Except.ok false,
       [SCEvent.scrollIntoView, SCEvent.settleDelay, SCEvent.nativeClick, SCEvent.jsClick,
        SCEvent.backoff,
        SCEvent.scrollIntoView, SCEvent.settleDelay, SCEvent.nativeClick, SCEvent.jsClick,
        SCEvent.backoff,
        SCEvent.scrollIntoView, SCEvent.settleDelay, SCEvent.nativeClick,
        SCEvent.logFailedAfterRetries]) := by
    simp [safeClick, hr, safeClickLoop, tryClickBody, hs, hn, hj, catchesIntercept,
      catchesException, maxRetries]
  refine ⟨heq, ?_⟩
  rw [heq]
  decide

/-- C4 witness: the environment in which every native click is
intercepted and every JavaScript fallback click fails. -/
theorem safeClick_intercept_retry_budget_witness :
    safeClick ⟨fun _ => none, fun _ => some ExKind.interceptEx,
        fun _ => some ExKind.otherEx⟩ =
      (Except.ok false,
       [SCEvent.scrollIntoView, SCEvent.settleDelay, SCEvent.nativeClick, SCEvent.jsClick,
        SCEvent.backoff,
        SCEvent.scrollIntoView, SCEvent.settleDelay, SCEvent.nativeClick, SCEvent.jsClick,
        SCEvent.backoff,
        SCEvent.scrollIntoView, SCEvent.settleDelay, SCEvent.nativeClick,
        SCEvent.logFailedAfterRetries]) ∧
    (safeClick ⟨fun _ => none, fun _ => some ExKind.interceptEx,
        fun _ => some ExKind.otherEx⟩).2.count SCEvent.nativeClick = maxRetries :=
  safeClick_intercept_retry_budget
    ⟨fun _ => none, fun _ => some ExKind.interceptEx, fun _ => some ExKind.otherEx⟩
    (fun _ => rfl) (fun _ => rfl) (fun _ => rfl)

/-- C5: when the first native click attempt succeeds (the scroll script
returns and the native click raises nothing on attempt 0), the outcome
is success and the call issues exactly one scroll-into-view, followed
by the settle delay, before the single native click. -/
theorem safeClick_first_attempt_native (env : ClickEnv)
    (h1 : env.scroll 0 = none) (h2 : env.native 0 = none) :
    safeClick env =
      (Except.ok true,
       [SCEvent.scrollIntoView, SCEvent.settleDelay, SCEvent.nativeClick,
        SCEvent.logClicked]) ∧
    (safeClick env).2.count SCEvent.scrollIntoView = 1 := by
  have hr : List.range maxRetries = [0, 1, 2] := rfl
  have heq : safeClick env =
      (Except.ok true,
       [SCEvent.scrollIntoView, SCEvent.settleDelay, SCEvent.nativeClick,
        SCEvent.logClicked]) := by
    simp [safeClick, hr, safeClickLoop, tryClickBody, h1, h2]
  refine ⟨heq, ?_⟩
  rw [heq]
  decide

/-- C5 witness: the environment in which nothing raises. -/
theorem safeClick_first_attempt_native_witness :
    safeClick ⟨fun _ => none, fun _ => none, fun _ => none⟩ =
      (Except.ok true,
       [SCEvent.scrollIntoView, SCEvent.settleDelay, SCEvent.nativeClick,
        SCEvent.logClicked]) ∧
    (safeClick ⟨fun _ => none, fun _ => none, fun _ => none⟩).2.count
        SCEvent.scrollIntoView = 1 :=
  safeClick_first_attempt_native ⟨fun _ => none, fun _ => none, fun _ => none⟩ rfl rfl

/-- C9: `_safe_click` is total at its interface — whatever the
behaviour of the scroll script, the native clicks and the JavaScript
fallback clicks, it returns a boolean and never lets an exception
propagate to its caller. -/
theorem safeClick_total_never_raises (env : ClickEnv) :
    ∃ b tr, safeClick env = (Except.ok b, tr) := by
  obtain ⟨b, tr, heq, -⟩ := safeClickLoop_ok env (List.range maxRetries)
  exact ⟨b, tr, heq⟩

/-- C6: for every behaviour of the twelve step functions, the scenario
loop executes every step in order regardless of earlier failures (the
executed-steps trace is always the full list of twelve names, so a
failure of step 4 still executes steps 5-12), a step that raises is
caught at the sequence level and recorded as `False` rather than
propagated, and the final result mapping has an entry for each of the
twelve distinct step names with the recorded outcome of that step. -/
theorem runCompleteScenario_all_steps (beh : Nat → StepOutcome) :
    (runCompleteScenario beh).2 = stepNames ∧
    stepNames.length = 12 ∧
    stepNames.Nodup ∧
    (runCompleteScenario beh).1 =
      [("Open Google", outcomeRecorded (beh 0)),
       ("Handle Google Cookies", outcomeRecorded (beh 1)),
       ("Search for Lectra", outcomeRecorded (beh 2)),
       ("Navigate to Lectra Website", outcomeRecorded (beh 3)),
       ("Handle Lectra Cookies", outcomeRecorded (beh 4)),
       ("Switch to English", outcomeRecorded (beh 5)),
       ("Navigate Fashion Menu", outcomeRecorded (beh 6)),
       ("Click Automotive & Furniture", outcomeRecorded (beh 7)),
       ("Navigate About Us", outcomeRecorded (beh 8)),
       ("Navigate to Careers", outcomeRecorded (beh 9)),
       ("Handle Career Cookies", outcomeRecorded (beh 10)),
       ("Search Jobs & Click First", outcomeRecorded (beh 11))] :=
  ⟨rfl, rfl, by decide, rfl⟩

/-- C8: contrary to the claim that a not-found outcome never escapes
its originating step, `step_2_handle_google_cookies` calls `wait.until`
on the cookie-consent element outside any `try:`, so when the element
is absent the timeout raises out of the step (it is only caught later,
at the sequence level); the step's own `else: return True` branch for
an absent banner is unreachable.  This theorem evaluates the step at
the failing input: cookie element absent (wait times out), everything
else well-behaved. -/
theorem step2_not_found_escapes :
    step2HandleGoogleCookies
      ⟨CandOutcome.raised ExKind.timeoutEx,
       ⟨fun _ => none, fun _ => none, fun _ => none⟩,
       CandOutcome.found 0⟩ = Except.error ExKind.timeoutEx := rfl

/-- Helper: the Furniture half of step 8 returns `True` on every
non-raising path. -/
theorem step8Furniture_cases (page : ByStrat → List Char → CandOutcome)
    (clickFurn : ClickEnv) :
    step8Furniture page clickFurn = Except.ok true ∨
    ∃ k, step8Furniture page clickFurn = Except.error k := by
  unfold step8Furniture
  cases hF : (findElementBySelectors page furnitureSelectors).1 with
  | error k => exact Or.inr ⟨k, rfl⟩
  | ok r =>
    cases r with
    | none => exact Or.inl rfl
    | some e =>
      cases hC : (safeClick clickFurn).1 with
      | error k => exact Or.inr ⟨k, rfl⟩
      | ok b => exact Or.inl rfl

/-- C10: `step_8_click_automotive_furniture` returns `True` for every
page state and click behaviour — a missing Automotive or Furniture
button and a failed click all still yield `True`; its entry in the
result map can only be `Failed` via an escaping exception (the
`Except.error` alternative), never via a returned `False`. -/
theorem step8_always_passes (page : ByStrat → List Char → CandOutcome)
    (clickAuto clickFurn : ClickEnv) :
    step8ClickAutomotiveFurniture page clickAuto clickFurn = Except.ok true ∨
    ∃ k, step8ClickAutomotiveFurniture page clickAuto clickFurn = Except.error k := by
  unfold step8ClickAutomotiveFurniture
  cases hA : (findElementBySelectors page automotiveSelectors).1 with
  | error k => exact Or.inr ⟨k, rfl⟩
  | ok r =>
    cases r with
    | none => exact step8Furniture_cases page clickFurn
    | some e =>
      cases hC : (safeClick clickAuto).1 with
      | error k => exact Or.inr ⟨k, rfl⟩
      | ok b => exact step8Furniture_cases page clickFurn
